import Mathlib

/-!
# Verification of the lets-encrypt layer (`reactive/lets_encrypt.py`)

Shallow embedding of the reactive charm layer that drives the
`letsencrypt` client: certificate issuance (`create_certificates`),
registration (`register_server`), renewal (`renew_cert`,
`no_renew_needed`), cron (dis)arming (`configure_periodic_renew`,
`unconfigure_periodic_renew`) and installation
(`check_version_and_install`).

External collaborators (subprocess invocations, the service manager, the
filesystem of `/etc/letsencrypt/live`, the cron table, the key-value
store) are modelled explicitly: subprocess outcomes are oracle inputs,
and every externally visible step is recorded in a trace of `Action`s.
-/

namespace LetsEncrypt

/-- Python truthiness of a string: non-empty. -/
def truthy (s : String) : Bool := s != ""

/-- A certificate request dict. A missing dict key is `none`
(`cert_request['fqdn']` on a missing key raises `KeyError`). -/
structure CertRequest where
  fqdn : Option (List String)
  contactEmail : Option String
deriving Repr, DecidableEq

/-- A `status_set` value. -/
inductive Status where
  | active (msg : String)
  | blocked (msg : String)
  | waiting (msg : String)
deriving Repr, DecidableEq

/-- A Python exception escaping a handler. -/
inductive PyExn where
  | keyError (key : String)
  | nameError (name : String)
  | procError
deriving Repr, DecidableEq

/-- Outcome of one `check_output` subprocess invocation, supplied as an
oracle: normal exit with output, `CalledProcessError` with captured
output, or any other raised exception. -/
inductive ProcOutcome where
  | ok (output : String)
  | err (output : String)
  | exn
deriving Repr, DecidableEq

/-- Externally visible steps, recorded in program order. -/
inductive Action where
  | removeStateAct (flag : String)
  | setStateAct (flag : String)
  | invoke (cmd : List String)
  | stopService (name : String)
  | startService (name : String)
  | openPortAct (p : Nat)
  | setStatusAct (s : Status)
  | createDhparamAct
deriving Repr, DecidableEq

/-- The mutable environment seen by the issuance/renewal windows.
`liveDirs` holds the fqdns `f` for which the directory
`/etc/letsencrypt/live/f` exists; `serviceName` is the
`layer.options('lets-encrypt').get('service-name')` value (`""` when not
configured); `status` is the last `status_set` value. -/
structure World where
  liveDirs : List String
  serviceName : String
  serviceRunning : Bool
  status : Option Status
deriving Repr, DecidableEq

/-- `stop_running_web_service`: stops the configured service if it is
running; returns `True` exactly in that case (`None`, i.e. falsy,
otherwise). -/
def stop_running_web_service (w : World) : Bool × World × List Action :=
  if truthy w.serviceName && w.serviceRunning then
    (true, { w with serviceRunning := false }, [Action.stopService w.serviceName])
  else
    (false, w, [])

/-- `start_web_service`: starts the configured service (no-op when no
service name is configured). -/
def start_web_service (w : World) : World × List Action :=
  if truthy w.serviceName then
    ({ w with serviceRunning := true }, [Action.startService w.serviceName])
  else
    (w, [])

/-- Whether the configured web service is currently running, i.e. the
condition under which `stop_running_web_service` reports `True`. -/
def webServiceWasRunning (w : World) : Bool :=
  truthy w.serviceName && w.serviceRunning

/-- The `mail_args` list built in `create_certificates`. -/
def mail_args (email : String) : List String :=
  if truthy email then ["--email", email] else ["--register-unsafely-without-email"]

/-- The `le_cmd` command line built in `create_certificates`. -/
def le_cmd (fqdns : List String) (email : String) : List String :=
  ["letsencrypt", "certonly", "--standalone", "--agree-tos", "--non-interactive"]
    ++ (fqdns.map (fun f => ["-d", f])).flatten ++ mail_args email

/-- How one loop iteration of `create_certificates` ends: fall through to
the next request (`continue` or normal completion of the body), `return
False`, or an uncaught exception. -/
inductive StepOut where
  | cont
  | failed
  | raised (e : PyExn)
deriving Repr, DecidableEq

/-- Result of one loop iteration of `create_certificates`. -/
structure StepResult where
  out : StepOut
  world : World
  trace : List Action
  counter : Nat
deriving Repr, DecidableEq

/-- The `finally: if needs_start: start_web_service()` clause. -/
def finallyStart (needsStart : Bool) (w : World) : World × List Action :=
  if needsStart then start_web_service w else (w, [])

/-- The `try`/`except CalledProcessError`/`finally` block of
`create_certificates`, entered with the service already stopped
(`needsStart`, `w1`, `trStop` come from `stop_running_web_service`).
`client k` is the oracle outcome of the `k`-th `letsencrypt certonly`
invocation of the batch.  On a successful invocation the external client
creates the live directories for the requested fqdns (modelled by
appending them to `liveDirs`).  The
`status_set('active', 'registered %s' % (fqdn))` call uses the loop
variable left over from the `for fqdn in cert_request['fqdn']` loop,
i.e. the last fqdn of the request; with an empty fqdn list that variable
is unbound and a `NameError` is raised inside the `try` block. -/
def tryInvokeCert (client : Nat → ProcOutcome) (k : Nat) (needsStart : Bool)
    (w1 : World) (trStop : List Action) (fqdns : List String)
    (email : String) : StepResult :=
  let cmd := le_cmd fqdns email
  match client k with
  | ProcOutcome.ok _out =>
    let w2 := { w1 with liveDirs := w1.liveDirs ++ fqdns }
    match fqdns.getLast? with
    | some lastF =>
      let st := Status.active ("registered " ++ lastF)
      let fin := finallyStart needsStart { w2 with status := some st }
      ⟨StepOut.cont, fin.1,
        trStop ++ [Action.invoke cmd, Action.setStatusAct st] ++ fin.2, k + 1⟩
    | none =>
      let fin := finallyStart needsStart w2
      ⟨StepOut.raised (PyExn.nameError "fqdn"), fin.1,
        trStop ++ [Action.invoke cmd] ++ fin.2, k + 1⟩
  | ProcOutcome.err out =>
    let st := Status.blocked ("letsencrypt registration failed: \n" ++ out)
    let fin := finallyStart needsStart { w1 with status := some st }
    ⟨StepOut.failed, fin.1,
      trStop ++ [Action.invoke cmd, Action.setStatusAct st] ++ fin.2, k + 1⟩
  | ProcOutcome.exn =>
    let fin := finallyStart needsStart w1
    ⟨StepOut.raised PyExn.procError, fin.1,
      trStop ++ [Action.invoke cmd] ++ fin.2, k + 1⟩

/-- The `any([os.path.isdir(f) for f in fqdnpaths])` conflict check:
whether any fqdn of the request already has a live certificate
directory. -/
def dirExistsCheck (w : World) (fqdns : List String) : Bool :=
  fqdns.any (fun f => w.liveDirs.contains f)

/-- One iteration of the `for cert_request in requests` loop of
`create_certificates`: the conflict check against the existing live
directories, the service stop, the `mail_args` construction (whose
missing-key `KeyError` occurs after the stop and outside the
`try`/`finally`), and the wrapped client invocation. -/
def processRequest (client : Nat → ProcOutcome) (k : Nat) (w : World)
    (r : CertRequest) : StepResult :=
  match r.fqdn with
  | none => ⟨StepOut.raised (PyExn.keyError "fqdn"), w, [], k⟩
  | some fqdns =>
    match dirExistsCheck w fqdns with
    | true =>
      -- Cert already exists: `continue`
      ⟨StepOut.cont, w, [], k⟩
    | false =>
      let s := stop_running_web_service w
      match r.contactEmail with
      | none =>
        -- KeyError between the service stop and the try block:
        -- the `finally` does not run, the service is not restarted
        ⟨StepOut.raised (PyExn.keyError "contact-email"), s.2.1, s.2.2, k⟩
      | some email => tryInvokeCert client k s.1 s.2.1 s.2.2 fqdns email

instance instDecEqExcept {ε α : Type} [DecidableEq ε] [DecidableEq α] :
    DecidableEq (Except ε α) := fun a b =>
  match a, b with
  | Except.error e, Except.error f =>
    if h : e = f then Decidable.isTrue (by rw [h])
    else Decidable.isFalse (fun hc => h (Except.error.inj hc))
  | Except.error _, Except.ok _ => Decidable.isFalse (fun hc => Except.noConfusion hc)
  | Except.ok _, Except.error _ => Decidable.isFalse (fun hc => Except.noConfusion hc)
  | Except.ok x, Except.ok y =>
    if h : x = y then Decidable.isTrue (by rw [h])
    else Decidable.isFalse (fun hc => h (Except.ok.inj hc))

/-- Result of `create_certificates` on a whole batch. -/
structure BatchResult where
  result : Except PyExn Bool
  world : World
  trace : List Action
  counter : Nat
deriving Repr, DecidableEq

/-- `create_certificates(requests)`: processes the batch in order;
`return False` on the first `CalledProcessError`, `True` when the loop
completes; uncaught exceptions propagate. -/
def create_certificates (client : Nat → ProcOutcome) (k : Nat) (w : World) :
    List CertRequest → BatchResult
  | [] => ⟨Except.ok true, w, [], k⟩
  | r :: rs =>
    let sr := processRequest client k w r
    match sr.out with
    | StepOut.cont =>
      let br := create_certificates client sr.counter sr.world rs
      ⟨br.result, br.world, sr.trace ++ br.trace, br.counter⟩
    | StepOut.failed => ⟨Except.ok false, sr.world, sr.trace, sr.counter⟩
    | StepOut.raised e => ⟨Except.error e, sr.world, sr.trace, sr.counter⟩

/-! ## Renewal (`renew_cert`, `no_renew_needed`) -/

/-- Substring test on character lists (Python's `needle in haystack`). -/
def hasSubstring (needle : List Char) : List Char → Bool
  | [] => decide (needle = [])
  | c :: rest => needle.isPrefixOf (c :: rest) || hasSubstring needle rest

/-- Python's `needle in haystack` on strings. -/
def strContains (haystack needle : String) : Bool :=
  hasSubstring needle.toList haystack.toList

/-- The renewal command line, used both by the `no_renew_needed` probe
and by the actual renewal invocation in `renew_cert`. -/
def renewCmd : List String := ["letsencrypt", "renew", "--agree-tos"]

/-- The textual marker `no_renew_needed` looks for. -/
def noRenewMarker : String := "No renewals were attempted."

/-- `no_renew_needed()`: runs `letsencrypt renew --agree-tos`, swallowing
a `CalledProcessError` and examining its captured output instead; returns
whether the output contains the marker.  Any other exception from the
invocation propagates. -/
def no_renew_needed (probe : ProcOutcome) : Except PyExn Bool :=
  match probe with
  | ProcOutcome.ok output => Except.ok (strContains output noRenewMarker)
  | ProcOutcome.err output => Except.ok (strContains output noRenewMarker)
  | ProcOutcome.exn => Except.error PyExn.procError

/-- The durable reactive flags this layer manipulates. -/
structure Flags where
  registered : Bool
  renewRequested : Bool
  renewed : Bool
deriving Repr, DecidableEq

/-- Result of one run of the `renew_cert` handler. -/
structure RenewResult where
  result : Except PyExn Unit
  flags : Flags
  world : World
  trace : List Action
deriving Repr, DecidableEq

/-- The `renew_cert` handler.  `probe` is the oracle outcome of the
`no_renew_needed` invocation, `renewOut` that of the real renewal
invocation.  The handler clears `lets-encrypt.renew.requested` first,
returns early when no renewal is due, and otherwise stops the running
web service, opens ports 80/443 and runs the renewal client inside a
`try`/`except CalledProcessError`/`finally` that restarts the service
when it had been stopped. -/
def renew_cert (configFqdn : String) (probe renewOut : ProcOutcome)
    (fl : Flags) (w : World) : RenewResult :=
  let fl1 := { fl with renewRequested := false }
  let tr0 := [Action.removeStateAct "lets-encrypt.renew.requested",
              Action.invoke renewCmd]
  match no_renew_needed probe with
  | Except.error e => ⟨Except.error e, fl1, w, tr0⟩
  | Except.ok true => ⟨Except.ok (), fl1, w, tr0⟩
  | Except.ok false =>
    let s := stop_running_web_service w
    let tr1 := tr0 ++ s.2.2 ++ [Action.openPortAct 80, Action.openPortAct 443]
    match renewOut with
    | ProcOutcome.ok _out =>
      let st := Status.active ("registered " ++ configFqdn)
      let fin := finallyStart s.1 { s.2.1 with status := some st }
      ⟨Except.ok (), { fl1 with renewed := true }, fin.1,
        tr1 ++ [Action.invoke renewCmd, Action.setStatusAct st,
                Action.setStateAct "lets-encrypt.renewed"] ++ fin.2⟩
    | ProcOutcome.err out =>
      let st := Status.blocked ("letsencrypt renewal failed: \n" ++ out)
      let fin := finallyStart s.1 { s.2.1 with status := some st }
      ⟨Except.ok (), fl1, fin.1,
        tr1 ++ [Action.invoke renewCmd, Action.setStatusAct st] ++ fin.2⟩
    | ProcOutcome.exn =>
      let fin := finallyStart s.1 s.2.1
      ⟨Except.error PyExn.procError, fl1, fin.1,
        tr1 ++ [Action.invoke renewCmd] ++ fin.2⟩

/-! ## Periodic renewal cron job -/

/-- One crontab entry. -/
structure CronJob where
  command : String
  comment : String
  schedule : String
  enabled : Bool
deriving Repr, DecidableEq

/-- The comment tag identifying this layer's renewal job. -/
def renewJobComment : String := "Renew Let\x27s Encrypt [managed by Juju]"

/-- `configure_periodic_renew()`: appends a new enabled job tagged with
`renewJobComment`, scheduled at a random minute (1–59) of hours 6 and 18.
It does not remove existing jobs. -/
def configure_periodic_renew (minute : Nat) (charmDir reactiveBin : String)
    (cron : List CronJob) : List CronJob :=
  let command := "export CHARM_DIR=\x22" ++ charmDir ++ "\x22; " ++ reactiveBin
      ++ " set_flag lets-encrypt.renew.requested "
  cron ++ [{ command := command, comment := renewJobComment,
             schedule := toString minute ++ " 6,18 * * *", enabled := true }]

/-- `unconfigure_periodic_renew()`: removes every job whose comment
matches `renewJobComment`. -/
def unconfigure_periodic_renew (cron : List CronJob) : List CronJob :=
  cron.filter (fun j => j.comment != renewJobComment)

/-- Number of cron jobs carrying this layer's tag. -/
def taggedJobCount (cron : List CronJob) : Nat :=
  (cron.filter (fun j => j.comment == renewJobComment)).length

/-! ## Registration (`register_server`) -/

/-- Durable state touched by `register_server`: the key-value store's
pending request list, the reactive flags, the world and the crontab. -/
structure SysState where
  kv : List CertRequest
  flags : Flags
  world : World
  cron : List CronJob
deriving Repr, DecidableEq

/-- Environment inputs of one `register_server` run: config values, the
`opened-ports` output, the subprocess oracle, and the random minute and
paths used when arming the cron job. -/
structure RegisterEnv where
  configFqdn : String
  configEmail : String
  ports : List String
  client : Nat → ProcOutcome
  minute : Nat
  charmDir : String
  reactiveBin : String

/-- Result of one `register_server` run. -/
structure RegisterResult where
  result : Except PyExn Unit
  state : SysState
  trace : List Action

/-- The request list `register_server` processes: the stored requests,
plus — when the `fqdn` config value is truthy — one request built from
`fqdn` and `contact-email` (the latter defaulted to `""`). -/
def gatherRequests (kv : List CertRequest) (configFqdn configEmail : String) :
    List CertRequest :=
  if truthy configFqdn then
    kv ++ [⟨some [configFqdn], some configEmail⟩]
  else kv

/-- The `register_server` handler.  Reads (and never writes back) the
stored request list; returns early when there is nothing to do or when
neither port 80 nor 443 is open; otherwise runs `create_certificates`
and, exactly when it returns `True`, disarms and re-arms the periodic
renewal job, installs the Diffie-Hellman parameter file and sets
`lets-encrypt.registered`. -/
def register_server (env : RegisterEnv) (s : SysState) : RegisterResult :=
  if s.kv.isEmpty && !(truthy env.configFqdn) then
    ⟨Except.ok (), s, []⟩
  else
    let requests := gatherRequests s.kv env.configFqdn env.configEmail
    if !(env.ports.contains "80/tcp" || env.ports.contains "443/tcp") then
      let st := Status.waiting "Waiting for ports to open (will happen in next hook)"
      ⟨Except.ok (), { s with world := { s.world with status := some st } },
        [Action.setStatusAct st]⟩
    else
      let br := create_certificates env.client 0 s.world requests
      match br.result with
      | Except.ok true =>
        let cron1 := unconfigure_periodic_renew s.cron
        let cron2 := configure_periodic_renew env.minute env.charmDir env.reactiveBin cron1
        ⟨Except.ok (),
          { s with world := br.world, cron := cron2,
                   flags := { s.flags with registered := true } },
          br.trace ++ [Action.createDhparamAct,
                       Action.setStateAct "lets-encrypt.registered"]⟩
      | Except.ok false => ⟨Except.ok (), { s with world := br.world }, br.trace⟩
      | Except.error e => ⟨Except.error e, { s with world := br.world }, br.trace⟩

/-! ## Config change and installation -/

/-- The `config_changed` handler body (run when the `fqdn` config value
changed): removes `lets-encrypt.registered` when
`configs.changed('fqdn') and configs.previous('fqdn') or
configs.get('fqdn')` is truthy.  Returns the new `registered` flag. -/
def config_changed (changedFqdn : Bool) (previousFqdn currentFqdn : String)
    (registered : Bool) : Bool :=
  if (changedFqdn && truthy previousFqdn) || truthy currentFqdn then
    false
  else registered

/-- Result of `check_version_and_install`. -/
structure InstallOutcome where
  installed : Bool
  openedPorts : List Nat
  status : Option Status
deriving Repr, DecidableEq

/-- Python's `<` on strings: lexicographic comparison of the code-point
sequences. -/
def pyStrLess : List Char → List Char → Bool
  | [], [] => false
  | [], _ :: _ => true
  | _ :: _, [] => false
  | a :: as, b :: bs => if a < b then true else if a = b then pyStrLess as bs else false

/-- Python's `a >= b` on strings (total order, so `¬ (a < b)`). -/
def pyStrGE (a b : String) : Bool := !(pyStrLess a.toList b.toList)

/-- `check_version_and_install`: compares the distribution codename with
`"xenial"` using Python string (lexicographic) comparison; blocks without
installing when `not series >= 'xenial'`, otherwise queues and installs
the `letsencrypt` package and opens ports 80 and 443. -/
def check_version_and_install (series : String) : InstallOutcome :=
  if !(pyStrGE series "xenial") then
    { installed := false, openedPorts := [],
      status := some (Status.blocked "Unsupported series < Xenial") }
  else
    { installed := true, openedPorts := [80, 443], status := none }

/-! ## Helper lemmas -/

/-- Whether an action is a `startService`. -/
def isStartAct : Action → Bool
  | Action.startService _ => true
  | _ => false

/-- Whether an action is a client `invoke`. -/
def isInvokeAct : Action → Bool
  | Action.invoke _ => true
  | _ => false

/-- Whether a trace contains a `startService` action. -/
def hasStartAction (tr : List Action) : Bool := tr.any isStartAct

/-- Whether a trace contains an `invoke` action. -/
def hasInvokeAction (tr : List Action) : Bool := tr.any isInvokeAct

theorem stop_of_run {w : World} (h : webServiceWasRunning w = true) :
    stop_running_web_service w =
      (true, { w with serviceRunning := false }, [Action.stopService w.serviceName]) := by
  unfold webServiceWasRunning at h
  unfold stop_running_web_service
  rw [h]
  rfl

theorem stop_of_not_run {w : World} (h : webServiceWasRunning w = false) :
    stop_running_web_service w = (false, w, []) := by
  unfold webServiceWasRunning at h
  unfold stop_running_web_service
  rw [h]
  rfl

theorem start_of_truthy {w : World} (h : truthy w.serviceName = true) :
    start_web_service w =
      ({ w with serviceRunning := true }, [Action.startService w.serviceName]) := by
  unfold start_web_service
  rw [h]
  rfl

theorem finallyStart_true (w : World) : finallyStart true w = start_web_service w := rfl

theorem finallyStart_false (w : World) : finallyStart false w = (w, []) := rfl

theorem stop_liveDirs (w : World) :
    (stop_running_web_service w).2.1.liveDirs = w.liveDirs := by
  unfold stop_running_web_service
  cases h : truthy w.serviceName && w.serviceRunning <;> rfl

theorem start_liveDirs (w : World) :
    (start_web_service w).1.liveDirs = w.liveDirs := by
  unfold start_web_service
  cases h : truthy w.serviceName <;> rfl

theorem finallyStart_liveDirs (ns : Bool) (w : World) :
    (finallyStart ns w).1.liveDirs = w.liveDirs := by
  cases ns
  · rw [finallyStart_false]
  · rw [finallyStart_true, start_liveDirs]

theorem tryInvokeCert_liveDirs_mono (client : Nat → ProcOutcome) (k : Nat)
    (ns : Bool) (w1 : World) (trS : List Action) (fqdns : List String)
    (email : String) :
    w1.liveDirs ⊆ (tryInvokeCert client k ns w1 trS fqdns email).world.liveDirs := by
  unfold tryInvokeCert
  cases hcl : client k with
  | ok out =>
    cases hl : fqdns.getLast? <;>
      simp [finallyStart_liveDirs, List.subset_append_left]
  | err out => simp [finallyStart_liveDirs]
  | exn => simp [finallyStart_liveDirs]

theorem processRequest_liveDirs_mono (client : Nat → ProcOutcome) (k : Nat)
    (w : World) (r : CertRequest) :
    w.liveDirs ⊆ (processRequest client k w r).world.liveDirs := by
  unfold processRequest
  cases hf : r.fqdn with
  | none => simp
  | some fqdns =>
    dsimp only
    cases hex : dirExistsCheck w fqdns with
    | true => simp
    | false =>
      dsimp only
      cases he : r.contactEmail with
      | none => simp [stop_liveDirs]
      | some email =>
        dsimp only
        have h := tryInvokeCert_liveDirs_mono client k
          (stop_running_web_service w).1 (stop_running_web_service w).2.1
          (stop_running_web_service w).2.2 fqdns email
        rw [stop_liveDirs] at h
        exact h

theorem processRequest_missing_fqdn {r : CertRequest}
    (client : Nat → ProcOutcome) (k : Nat) (w : World) (hf : r.fqdn = none) :
    processRequest client k w r =
      ⟨StepOut.raised (PyExn.keyError "fqdn"), w, [], k⟩ := by
  unfold processRequest
  rw [hf]

theorem processRequest_skip {r : CertRequest} {fqdns : List String}
    (client : Nat → ProcOutcome) (k : Nat) (w : World)
    (hf : r.fqdn = some fqdns) (hex : dirExistsCheck w fqdns = true) :
    processRequest client k w r = ⟨StepOut.cont, w, [], k⟩ := by
  unfold processRequest
  rw [hf]
  dsimp only
  rw [hex]

theorem processRequest_missing_email {r : CertRequest} {fqdns : List String}
    (client : Nat → ProcOutcome) (k : Nat) (w : World)
    (hf : r.fqdn = some fqdns) (hex : dirExistsCheck w fqdns = false)
    (he : r.contactEmail = none) :
    processRequest client k w r =
      ⟨StepOut.raised (PyExn.keyError "contact-email"),
       (stop_running_web_service w).2.1, (stop_running_web_service w).2.2, k⟩ := by
  unfold processRequest
  rw [hf]
  dsimp only
  rw [hex]
  dsimp only
  rw [he]

theorem processRequest_invoke {r : CertRequest} {fqdns : List String}
    {email : String} (client : Nat → ProcOutcome) (k : Nat) (w : World)
    (hf : r.fqdn = some fqdns) (hex : dirExistsCheck w fqdns = false)
    (he : r.contactEmail = some email) :
    processRequest client k w r =
      tryInvokeCert client k (stop_running_web_service w).1
        (stop_running_web_service w).2.1 (stop_running_web_service w).2.2
        fqdns email := by
  unfold processRequest
  rw [hf]
  dsimp only
  rw [hex]
  dsimp only
  rw [he]

theorem create_cons_of_cont {client : Nat → ProcOutcome} {k : Nat} {w : World}
    {r : CertRequest} (rs : List CertRequest)
    (h : (processRequest client k w r).out = StepOut.cont) :
    create_certificates client k w (r :: rs) =
      ⟨(create_certificates client (processRequest client k w r).counter
          (processRequest client k w r).world rs).result,
       (create_certificates client (processRequest client k w r).counter
          (processRequest client k w r).world rs).world,
       (processRequest client k w r).trace ++
         (create_certificates client (processRequest client k w r).counter
            (processRequest client k w r).world rs).trace,
       (create_certificates client (processRequest client k w r).counter
          (processRequest client k w r).world rs).counter⟩ := by
  simp only [create_certificates]
  rw [h]

theorem create_cons_of_failed {client : Nat → ProcOutcome} {k : Nat} {w : World}
    {r : CertRequest} (rs : List CertRequest)
    (h : (processRequest client k w r).out = StepOut.failed) :
    create_certificates client k w (r :: rs) =
      ⟨Except.ok false, (processRequest client k w r).world,
       (processRequest client k w r).trace,
       (processRequest client k w r).counter⟩ := by
  simp only [create_certificates]
  rw [h]

theorem create_cons_of_raised {client : Nat → ProcOutcome} {k : Nat} {w : World}
    {r : CertRequest} {e : PyExn} (rs : List CertRequest)
    (h : (processRequest client k w r).out = StepOut.raised e) :
    create_certificates client k w (r :: rs) =
      ⟨Except.error e, (processRequest client k w r).world,
       (processRequest client k w r).trace,
       (processRequest client k w r).counter⟩ := by
  simp only [create_certificates]
  rw [h]

theorem create_liveDirs_mono (client : Nat → ProcOutcome)
    (reqs : List CertRequest) : ∀ (k : Nat) (w : World),
    w.liveDirs ⊆ (create_certificates client k w reqs).world.liveDirs := by
  induction reqs with
  | nil => intro k w; simp [create_certificates]
  | cons r rs ih =>
    intro k w
    simp only [create_certificates]
    cases hout : (processRequest client k w r).out with
    | cont =>
      exact (processRequest_liveDirs_mono client k w r).trans
        (ih (processRequest client k w r).counter (processRequest client k w r).world)
    | failed => exact processRequest_liveDirs_mono client k w r
    | raised e => exact processRequest_liveDirs_mono client k w r

/-- Sequential composition of batches: processing `pre ++ post` first
processes `pre`, and goes on to `post` exactly when `pre` completed with
`True`. -/
theorem create_append (client : Nat → ProcOutcome) (pre post : List CertRequest) :
    ∀ (k : Nat) (w : World),
    create_certificates client k w (pre ++ post) =
      (match (create_certificates client k w pre).result with
       | Except.ok true =>
         ⟨(create_certificates client (create_certificates client k w pre).counter
             (create_certificates client k w pre).world post).result,
          (create_certificates client (create_certificates client k w pre).counter
             (create_certificates client k w pre).world post).world,
          (create_certificates client k w pre).trace ++
            (create_certificates client (create_certificates client k w pre).counter
               (create_certificates client k w pre).world post).trace,
          (create_certificates client (create_certificates client k w pre).counter
             (create_certificates client k w pre).world post).counter⟩
       | _ => create_certificates client k w pre) := by
  induction pre with
  | nil =>
    intro k w
    simp [create_certificates]
  | cons r rs ih =>
    intro k w
    cases hout : (processRequest client k w r).out with
    | cont =>
      rw [List.cons_append, create_cons_of_cont (rs ++ post) hout,
          create_cons_of_cont rs hout, ih]
      cases hres : (create_certificates client (processRequest client k w r).counter
          (processRequest client k w r).world rs).result with
      | ok b =>
        cases b
        · rw [hres]
        · dsimp only
          simp [List.append_assoc]
      | error e => rw [hres]
    | failed =>
      rw [List.cons_append, create_cons_of_failed (rs ++ post) hout,
          create_cons_of_failed rs hout]
    | raised e =>
      rw [List.cons_append, create_cons_of_raised (rs ++ post) hout,
          create_cons_of_raised rs hout]

/-- Whether a single request would be "already satisfied or newly
issued": its fqdn key is present and either some fqdn already has a
certificate directory (skip), or the contact-email key is present, the
fqdn list is non-empty and the client invocation for it succeeds. -/
def requestOkOrSkipped (client : Nat → ProcOutcome) (k : Nat) (w : World)
    (r : CertRequest) : Bool :=
  match r.fqdn with
  | none => false
  | some fqdns =>
    match dirExistsCheck w fqdns with
    | true => true
    | false =>
      match r.contactEmail with
      | none => false
      | some _ =>
        match client k with
        | ProcOutcome.ok _ => !fqdns.isEmpty
        | _ => false

/-- Whether every request in the batch, processed in order, is either
already satisfied or newly issued. -/
def batchAllOk (client : Nat → ProcOutcome) (k : Nat) (w : World) :
    List CertRequest → Bool
  | [] => true
  | r :: rs =>
    requestOkOrSkipped client k w r &&
      batchAllOk client (processRequest client k w r).counter
        (processRequest client k w r).world rs

theorem getLast?_none_iff {α : Type} (l : List α) :
    l.getLast? = none ↔ l.isEmpty = true := by
  cases l <;> simp

theorem processRequest_out_cont_iff (client : Nat → ProcOutcome) (k : Nat)
    (w : World) (r : CertRequest) :
    (processRequest client k w r).out = StepOut.cont ↔
      requestOkOrSkipped client k w r = true := by
  unfold requestOkOrSkipped
  cases hf : r.fqdn with
  | none => rw [processRequest_missing_fqdn client k w hf]; simp
  | some fqdns =>
    dsimp only
    cases hex : dirExistsCheck w fqdns with
    | true => rw [processRequest_skip client k w hf hex]; simp
    | false =>
      dsimp only
      cases he : r.contactEmail with
      | none => rw [processRequest_missing_email client k w hf hex he]; simp
      | some email =>
        dsimp only
        rw [processRequest_invoke client k w hf hex he]
        unfold tryInvokeCert
        cases hcl : client k with
        | ok out =>
          dsimp only
          cases hl : fqdns.getLast? with
          | some lastF =>
            have hne : fqdns.isEmpty = false := by
              cases hie : fqdns.isEmpty
              · rfl
              · rw [← getLast?_none_iff] at hie
                rw [hl] at hie
                cases hie
            simp [hne]
          | none =>
            have hie : fqdns.isEmpty = true := (getLast?_none_iff fqdns).mp hl
            simp [hie]
        | err out => simp
        | exn => simp

theorem create_ok_iff (client : Nat → ProcOutcome) (reqs : List CertRequest) :
    ∀ (k : Nat) (w : World),
    (create_certificates client k w reqs).result = Except.ok true ↔
      batchAllOk client k w reqs = true := by
  induction reqs with
  | nil => intro k w; simp [create_certificates, batchAllOk]
  | cons r rs ih =>
    intro k w
    cases hout : (processRequest client k w r).out with
    | cont =>
      rw [create_cons_of_cont rs hout]
      have hok : requestOkOrSkipped client k w r = true :=
        (processRequest_out_cont_iff client k w r).mp hout
      unfold batchAllOk
      rw [hok]
      simpa using ih (processRequest client k w r).counter (processRequest client k w r).world
    | failed =>
      rw [create_cons_of_failed rs hout]
      have hok : requestOkOrSkipped client k w r = false := by
        cases hq : requestOkOrSkipped client k w r
        · rfl
        · have := (processRequest_out_cont_iff client k w r).mpr hq
          rw [hout] at this
          cases this
      unfold batchAllOk
      rw [hok]
      simp
    | raised e =>
      rw [create_cons_of_raised rs hout]
      have hok : requestOkOrSkipped client k w r = false := by
        cases hq : requestOkOrSkipped client k w r
        · rfl
        · have := (processRequest_out_cont_iff client k w r).mpr hq
          rw [hout] at this
          cases this
      unfold batchAllOk
      rw [hok]
      simp

theorem isPrefixOf_eq_exists (l₁ : List Char) :
    ∀ l₂, l₁.isPrefixOf l₂ = true ↔ ∃ t, l₁ ++ t = l₂ := by
  induction l₁ with
  | nil => intro l₂; simp [List.isPrefixOf]
  | cons a as ih =>
    intro l₂
    cases l₂ with
    | nil => simp [List.isPrefixOf]
    | cons b bs =>
      simp only [List.isPrefixOf, Bool.and_eq_true, beq_iff_eq, ih,
        List.cons_append, List.cons.injEq]
      constructor
      · rintro ⟨hab, t, ht⟩
        exact ⟨t, hab, ht⟩
      · rintro ⟨t, hab, ht⟩
        exact ⟨hab, t, ht⟩

/-- `hasSubstring` decides genuine substring occurrence. -/
theorem hasSubstring_iff (needle : List Char) :
    ∀ l, hasSubstring needle l = true ↔ ∃ pre post, l = pre ++ needle ++ post := by
  intro l
  induction l with
  | nil =>
    simp only [hasSubstring, decide_eq_true_eq]
    constructor
    · intro h
      exact ⟨[], [], by simp [h]⟩
    · rintro ⟨pre, post, h⟩
      rcases List.append_eq_nil.mp (List.append_eq_nil.mp h.symm).1 with ⟨-, hn⟩
      exact hn
  | cons c rest ih =>
    simp only [hasSubstring, Bool.or_eq_true, isPrefixOf_eq_exists, ih]
    constructor
    · rintro (⟨t, ht⟩ | ⟨pre, post, h⟩)
      · exact ⟨[], t, by simp [ht]⟩
      · exact ⟨c :: pre, post, by simp [h]⟩
    · rintro ⟨pre, post, h⟩
      cases pre with
      | nil =>
        left
        exact ⟨post, by simpa using h.symm⟩
      | cons p ps =>
        right
        rw [List.cons_append, List.cons_append, List.cons.injEq] at h
        exact ⟨ps, post, h.2⟩

/-- String-level reading of `strContains`. -/
theorem strContains_iff (haystack needle : String) :
    strContains haystack needle = true ↔
      ∃ pre post, haystack.toList = pre ++ needle.toList ++ post := by
  unfold strContains
  exact hasSubstring_iff needle.toList haystack.toList

theorem hasStartAction_append (a b : List Action) :
    hasStartAction (a ++ b) = (hasStartAction a || hasStartAction b) := by
  unfold hasStartAction
  exact List.any_append

theorem hasStartAction_nil : hasStartAction [] = false := rfl

theorem hasStartAction_cons (a : Action) (tr : List Action) :
    hasStartAction (a :: tr) = (isStartAct a || hasStartAction tr) := rfl

theorem stop_trace_no_start (w : World) :
    hasStartAction (stop_running_web_service w).2.2 = false := by
  cases hws : webServiceWasRunning w
  · rw [stop_of_not_run hws]
    rfl
  · rw [stop_of_run hws]
    rfl

/-- The stop / wrapped-operation / conditional-restart pattern: for any
world transformer `f` that does not touch the service name or run state
(the wrapped operation only changes `liveDirs`/`status`), the service
run state after `finallyStart` equals the initial one, and a
`startService` action is emitted exactly when the service was running
beforehand. -/
theorem finallyStart_after_stop (w : World) (f : World → World)
    (hn : ∀ v : World, (f v).serviceName = v.serviceName)
    (hr : ∀ v : World, (f v).serviceRunning = v.serviceRunning) :
    (finallyStart (stop_running_web_service w).1
        (f (stop_running_web_service w).2.1)).1.serviceRunning = w.serviceRunning ∧
    hasStartAction (finallyStart (stop_running_web_service w).1
        (f (stop_running_web_service w).2.1)).2 = webServiceWasRunning w := by
  cases hws : webServiceWasRunning w with
  | false =>
    rw [stop_of_not_run hws]
    dsimp only
    rw [finallyStart_false]
    exact ⟨hr w, rfl⟩
  | true =>
    have h2 := hws
    unfold webServiceWasRunning at h2
    rw [Bool.and_eq_true] at h2
    rw [stop_of_run hws]
    dsimp only
    rw [finallyStart_true]
    have hsn : truthy (f { w with serviceRunning := false }).serviceName = true := by
      rw [hn]
      exact h2.1
    rw [start_of_truthy hsn]
    exact ⟨h2.2.symm, rfl⟩

/-! ## Claims -/

/-- C5: a request one of whose fqdns already has a live certificate
directory is skipped entirely: `create_certificates` performs no client
invocation for it, does not stop or start the web service for it, does
not alter the reported status, and leaves the existing certificate
directories untouched — the iteration returns the world unchanged with
an empty trace, and the batch behaves as if the request were absent. -/
theorem c5_existing_cert_skipped
    (client : Nat → ProcOutcome) (k : Nat) (w : World) (r : CertRequest)
    (rs : List CertRequest) (fqdns : List String)
    (hf : r.fqdn = some fqdns) (hex : dirExistsCheck w fqdns = true) :
    processRequest client k w r = ⟨StepOut.cont, w, [], k⟩ ∧
    create_certificates client k w (r :: rs) = create_certificates client k w rs := by
  have h := processRequest_skip client k w hf hex
  refine ⟨h, ?_⟩
  rw [create_cons_of_cont rs (by rw [h]), h]
  simp

/-- Witness for C5 at a concrete skipped request. -/
theorem c5_existing_cert_skipped_witness :
    processRequest (fun _ => ProcOutcome.ok "") 0
        ⟨["a.example.com"], "nginx", true, none⟩
        ⟨some ["a.example.com"], some ""⟩ =
      ⟨StepOut.cont, ⟨["a.example.com"], "nginx", true, none⟩, [], 0⟩ :=
  (c5_existing_cert_skipped (fun _ => ProcOutcome.ok "") 0
    ⟨["a.example.com"], "nginx", true, none⟩
    ⟨some ["a.example.com"], some ""⟩ [] ["a.example.com"] rfl (by decide)).1

/-- C10 counterexample: a request lacking the `contact-email` key whose
fqdn already has a certificate directory is skipped before the key is
read, so no `KeyError` is raised and the batch returns `True` — the
claim "for any request lacking either key it raises an uncaught
KeyError" fails at this input. -/
theorem c10_counterexample :
    create_certificates (fun _ => ProcOutcome.ok "") 0
        ⟨["a.example.com"], "nginx", true, none⟩
        [⟨some ["a.example.com"], none⟩] =
      ⟨Except.ok true, ⟨["a.example.com"], "nginx", true, none⟩, [], 0⟩ := by
  decide

/-- C10 amended: a request lacking the `fqdn` key raises an uncaught
`KeyError('fqdn')` when the loop reaches it; a request lacking the
`contact-email` key raises an uncaught `KeyError('contact-email')` when
the loop reaches it and it is not skipped by the existing-directory
check (only `CalledProcessError` is caught, so the `KeyError` aborts the
whole batch). -/
theorem c10_missing_key_raises
    (client : Nat → ProcOutcome) (k : Nat) (w : World) (r : CertRequest)
    (rs : List CertRequest) :
    (r.fqdn = none →
      create_certificates client k w (r :: rs) =
        ⟨Except.error (PyExn.keyError "fqdn"), w, [], k⟩) ∧
    (∀ fqdns, r.fqdn = some fqdns → dirExistsCheck w fqdns = false →
      r.contactEmail = none →
      create_certificates client k w (r :: rs) =
        ⟨Except.error (PyExn.keyError "contact-email"),
         (stop_running_web_service w).2.1, (stop_running_web_service w).2.2, k⟩) := by
  constructor
  · intro hf
    have h := processRequest_missing_fqdn client k w hf
    rw [create_cons_of_raised rs (by rw [h]), h]
  · intro fqdns hf hex he
    have h := processRequest_missing_email client k w hf hex he
    rw [create_cons_of_raised rs (by rw [h]), h]

/-- Witness for C10's amended statement. -/
theorem c10_missing_key_raises_witness :
    create_certificates (fun _ => ProcOutcome.ok "") 0 ⟨[], "", false, none⟩
        [⟨none, none⟩] =
      ⟨Except.error (PyExn.keyError "fqdn"), ⟨[], "", false, none⟩, [], 0⟩ :=
  (c10_missing_key_raises (fun _ => ProcOutcome.ok "") 0 ⟨[], "", false, none⟩
    ⟨none, none⟩ []).1 rfl

/-- C3 counterexample: a stored pending request for which an issuance
attempt is made (the trace records a client invocation, which here
fails) is still present in the durable store afterwards — the pending
set is not drained. -/
theorem c3_counterexample :
    (register_server
        ⟨"", "", ["80/tcp"], fun _ => ProcOutcome.err "boom", 5, "/cd", "/bin/cr"⟩
        ⟨[⟨some ["a.example.com"], some ""⟩], ⟨false, false, false⟩,
         ⟨[], "", false, none⟩, []⟩).state.kv =
      [⟨some ["a.example.com"], some ""⟩] ∧
    hasInvokeAction (register_server
        ⟨"", "", ["80/tcp"], fun _ => ProcOutcome.err "boom", 5, "/cd", "/bin/cr"⟩
        ⟨[⟨some ["a.example.com"], some ""⟩], ⟨false, false, false⟩,
         ⟨[], "", false, none⟩, []⟩).trace = true := by
  constructor
  · decide
  · decide

/-- C3 amended: `register_server` never writes the durable pending set:
the stored request list is identical before and after every run, on
every path (no-op, waiting-for-ports, success, failure, exception), so a
processed request — successful or failed — remains pending and is
re-read on any later trigger of the handler. -/
theorem c3_kv_never_drained (env : RegisterEnv) (s : SysState) :
    (register_server env s).state.kv = s.kv := by
  unfold register_server
  dsimp only
  split
  · rfl
  · split
    · rfl
    · split <;> rfl

/-- C7 counterexample: calling `configure_periodic_renew` (the arming
routine) twice in succession leaves two jobs tagged with this system's
comment string, not one — the routine itself never removes existing
jobs. -/
theorem c7_counterexample :
    taggedJobCount (configure_periodic_renew 5 "/cd" "/bin/cr"
      (configure_periodic_renew 7 "/cd" "/bin/cr" [])) = 2 := by
  decide

theorem unconfigure_removes_tagged (cron : List CronJob) :
    (unconfigure_periodic_renew cron).filter
      (fun j => j.comment == renewJobComment) = [] := by
  unfold unconfigure_periodic_renew
  induction cron with
  | nil => rfl
  | cons j js ih =>
    simp only [List.filter_cons]
    cases h : j.comment == renewJobComment
    · simp [bne, h, ih]
    · simp [bne, h, ih]

/-- C7 amended: `configure_periodic_renew` alone duplicates the tagged
job, but `unconfigure_periodic_renew` removes every tagged job, the
disarm-then-arm sequence actually used by `register_server` leaves
exactly one tagged job regardless of how many existed before, and every
`register_server` run either leaves the crontab untouched or leaves
exactly one tagged job. -/
theorem c7_rearm_single_job (minute : Nat) (charmDir reactiveBin : String)
    (cron : List CronJob) :
    taggedJobCount (unconfigure_periodic_renew cron) = 0 ∧
    taggedJobCount (configure_periodic_renew minute charmDir reactiveBin
      (unconfigure_periodic_renew cron)) = 1 ∧
    (∀ (env : RegisterEnv) (s : SysState),
      (register_server env s).state.cron = s.cron ∨
      taggedJobCount (register_server env s).state.cron = 1) := by
  have hpair : ∀ (m : Nat) (cd rb : String) (c : List CronJob),
      taggedJobCount (configure_periodic_renew m cd rb
        (unconfigure_periodic_renew c)) = 1 := by
    intro m cd rb c
    have h0 := unconfigure_removes_tagged c
    unfold taggedJobCount configure_periodic_renew
    rw [List.filter_append, h0]
    simp
  refine ⟨?_, hpair minute charmDir reactiveBin cron, ?_⟩
  · have h0 := unconfigure_removes_tagged cron
    unfold taggedJobCount
    rw [h0]
    rfl
  · intro env s
    unfold register_server
    dsimp only
    split
    · exact Or.inl rfl
    · split
      · exact Or.inl rfl
      · split
        · exact Or.inr (hpair env.minute env.charmDir env.reactiveBin s.cron)
        · exact Or.inl rfl
        · exact Or.inl rfl

/-- C8: the installation gate compares the distribution codename to
`"xenial"` lexicographically.  At `"bionic"` (Ubuntu 18.04, a release
newer than xenial) the gate blocks with "Unsupported series < Xenial",
installs nothing and opens no ports; `"xenial"` itself installs and
opens ports 80 and 443; in general the handler installs exactly when the
codename is lexicographically ≥ `"xenial"`. -/
theorem c8_version_gate :
    (check_version_and_install "bionic").installed = false ∧
    (check_version_and_install "bionic").openedPorts = [] ∧
    (check_version_and_install "bionic").status =
      some (Status.blocked "Unsupported series < Xenial") ∧
    check_version_and_install "xenial" = ⟨true, [80, 443], none⟩ ∧
    (∀ series, check_version_and_install series =
      (if pyStrGE series "xenial" then ⟨true, [80, 443], none⟩
       else ⟨false, [], some (Status.blocked "Unsupported series < Xenial")⟩)) := by
  refine ⟨by decide, by decide, by decide, by decide, ?_⟩
  intro series
  unfold check_version_and_install
  cases h : pyStrGE series "xenial" <;> simp [h]

/-- C6: `renew_cert` clears the renewal-requested flag as its very first
step — the head of every trace is the `remove_state` action, before the
due-check invocation — and on every outcome (nothing due, success,
failure, crash) the flag is false afterwards, so a failed renewal is not
re-attempted until the next scheduled trigger sets the flag again. -/
theorem c6_renew_clears_flag_first (configFqdn : String)
    (probe renewOut : ProcOutcome) (fl : Flags) (w : World) :
    (renew_cert configFqdn probe renewOut fl w).trace.head? =
      some (Action.removeStateAct "lets-encrypt.renew.requested") ∧
    (renew_cert configFqdn probe renewOut fl w).flags.renewRequested = false := by
  unfold renew_cert
  cases hp : no_renew_needed probe with
  | error e => exact ⟨rfl, rfl⟩
  | ok b =>
    cases b
    · dsimp only
      cases renewOut <;> exact ⟨rfl, rfl⟩
    · exact ⟨rfl, rfl⟩

/-- C1: around every issuance or renewal window (the wrapped client
invocation between `stop_running_web_service` and the `finally` restart),
the configured web service's run state after the window equals its run
state before, on every exit path of the wrapped invocation (success,
`CalledProcessError`, or any other raised exception), and a
`startService` action is emitted if and only if the service was running
beforehand.  First conjunct: the renewal window of `renew_cert` (when
the due-check reports a renewal is needed); second conjunct: the
issuance window of one `create_certificates` iteration (when the request
is not skipped and both dict keys are present, i.e. the client
invocation is actually reached). -/
theorem c1_service_restored_every_exit_path :
    (∀ (configFqdn : String) (probe renewOut : ProcOutcome) (fl : Flags) (w : World),
      no_renew_needed probe = Except.ok false →
      (renew_cert configFqdn probe renewOut fl w).world.serviceRunning = w.serviceRunning ∧
      hasStartAction (renew_cert configFqdn probe renewOut fl w).trace =
        webServiceWasRunning w) ∧
    (∀ (client : Nat → ProcOutcome) (k : Nat) (w : World) (r : CertRequest)
       (fqdns : List String) (email : String),
      r.fqdn = some fqdns → dirExistsCheck w fqdns = false →
      r.contactEmail = some email →
      (processRequest client k w r).world.serviceRunning = w.serviceRunning ∧
      hasStartAction (processRequest client k w r).trace = webServiceWasRunning w) := by
  constructor
  · intro configFqdn probe renewOut fl w hprobe
    unfold renew_cert
    rw [hprobe]
    dsimp only
    cases renewOut with
    | ok out =>
      have h := finallyStart_after_stop w
        (fun v => { v with
          status := some (Status.active ("registered " ++ configFqdn)) })
        (fun _ => rfl) (fun _ => rfl)
      dsimp only at h
      refine ⟨h.1, ?_⟩
      simp only [hasStartAction_append, stop_trace_no_start, hasStartAction_cons,
        hasStartAction_nil, isStartAct, Bool.or_false, Bool.false_or]
      exact h.2
    | err out =>
      have h := finallyStart_after_stop w
        (fun v => { v with
          status := some (Status.blocked ("letsencrypt renewal failed: \n" ++ out)) })
        (fun _ => rfl) (fun _ => rfl)
      dsimp only at h
      refine ⟨h.1, ?_⟩
      simp only [hasStartAction_append, stop_trace_no_start, hasStartAction_cons,
        hasStartAction_nil, isStartAct, Bool.or_false, Bool.false_or]
      exact h.2
    | exn =>
      have h := finallyStart_after_stop w (fun v => v) (fun _ => rfl) (fun _ => rfl)
      dsimp only at h
      refine ⟨h.1, ?_⟩
      simp only [hasStartAction_append, stop_trace_no_start, hasStartAction_cons,
        hasStartAction_nil, isStartAct, Bool.or_false, Bool.false_or]
      exact h.2
  · intro client k w r fqdns email hf hex he
    rw [processRequest_invoke client k w hf hex he]
    unfold tryInvokeCert
    cases hcl : client k with
    | ok out =>
      dsimp only
      cases hl : fqdns.getLast? with
      | some lastF =>
        have h := finallyStart_after_stop w
          (fun v => { { v with liveDirs := v.liveDirs ++ fqdns } with
            status := some (Status.active ("registered " ++ lastF)) })
          (fun _ => rfl) (fun _ => rfl)
        dsimp only at h
        refine ⟨h.1, ?_⟩
        simp only [hasStartAction_append, stop_trace_no_start, hasStartAction_cons,
          hasStartAction_nil, isStartAct, Bool.or_false, Bool.false_or]
        exact h.2
      | none =>
        have h := finallyStart_after_stop w
          (fun v => { v with liveDirs := v.liveDirs ++ fqdns })
          (fun _ => rfl) (fun _ => rfl)
        dsimp only at h
        refine ⟨h.1, ?_⟩
        simp only [hasStartAction_append, stop_trace_no_start, hasStartAction_cons,
          hasStartAction_nil, isStartAct, Bool.or_false, Bool.false_or]
        exact h.2
    | err out =>
      have h := finallyStart_after_stop w
        (fun v => { v with
          status := some (Status.blocked ("letsencrypt registration failed: \n" ++ out)) })
        (fun _ => rfl) (fun _ => rfl)
      dsimp only at h
      refine ⟨h.1, ?_⟩
      simp only [hasStartAction_append, stop_trace_no_start, hasStartAction_cons,
        hasStartAction_nil, isStartAct, Bool.or_false, Bool.false_or]
      exact h.2
    | exn =>
      have h := finallyStart_after_stop w (fun v => v) (fun _ => rfl) (fun _ => rfl)
      dsimp only at h
      refine ⟨h.1, ?_⟩
      simp only [hasStartAction_append, stop_trace_no_start, hasStartAction_cons,
        hasStartAction_nil, isStartAct, Bool.or_false, Bool.false_or]
      exact h.2

/-- Witness for C1: a crashing renewal client still leaves the
previously-running service running. -/
theorem c1_service_restored_witness :
    (renew_cert "a.example.com" (ProcOutcome.ok "renewing") ProcOutcome.exn
        ⟨true, true, false⟩ ⟨[], "nginx", true, none⟩).world.serviceRunning = true ∧
    hasStartAction (renew_cert "a.example.com" (ProcOutcome.ok "renewing")
        ProcOutcome.exn ⟨true, true, false⟩ ⟨[], "nginx", true, none⟩).trace = true :=
  (c1_service_restored_every_exit_path.1 "a.example.com" (ProcOutcome.ok "renewing")
    ProcOutcome.exn ⟨true, true, false⟩ ⟨[], "nginx", true, none⟩ (by decide))

/-- C2: if the client invocation for a request exits non-zero, the batch
returns `False` immediately: the remaining requests are not attempted
(the whole run equals the run with the remaining requests absent), and
every certificate directory present before the batch — including those
created by the earlier, successful requests — persists.  Conversely the
batch returns `True` exactly when every request in sequence is either
skipped as already satisfied or newly issued. -/
theorem c2_batch_aborts_on_first_failure :
    (∀ (client : Nat → ProcOutcome) (k : Nat) (w : World)
       (pre post : List CertRequest) (r : CertRequest)
       (fqdns : List String) (email : String) (out : String),
      (create_certificates client k w pre).result = Except.ok true →
      r.fqdn = some fqdns →
      dirExistsCheck (create_certificates client k w pre).world fqdns = false →
      r.contactEmail = some email →
      client (create_certificates client k w pre).counter = ProcOutcome.err out →
      create_certificates client k w (pre ++ r :: post) =
        create_certificates client k w (pre ++ [r]) ∧
      (create_certificates client k w (pre ++ r :: post)).result = Except.ok false ∧
      w.liveDirs ⊆ (create_certificates client k w (pre ++ r :: post)).world.liveDirs ∧
      (create_certificates client k w pre).world.liveDirs ⊆
        (create_certificates client k w (pre ++ r :: post)).world.liveDirs) ∧
    (∀ (client : Nat → ProcOutcome) (k : Nat) (w : World) (reqs : List CertRequest),
      (create_certificates client k w reqs).result = Except.ok true ↔
        batchAllOk client k w reqs = true) := by
  constructor
  · intro client k w pre post r fqdns email out hpre hf hex he hcl
    have hstep : (processRequest client (create_certificates client k w pre).counter
        (create_certificates client k w pre).world r).out = StepOut.failed := by
      rw [processRequest_invoke client _ _ hf hex he]
      unfold tryInvokeCert
      rw [hcl]
    have hcons : ∀ tail, create_certificates client
        (create_certificates client k w pre).counter
        (create_certificates client k w pre).world (r :: tail) =
        ⟨Except.ok false,
         (processRequest client (create_certificates client k w pre).counter
            (create_certificates client k w pre).world r).world,
         (processRequest client (create_certificates client k w pre).counter
            (create_certificates client k w pre).world r).trace,
         (processRequest client (create_certificates client k w pre).counter
            (create_certificates client k w pre).world r).counter⟩ :=
      fun tail => create_cons_of_failed tail hstep
    have hmain : create_certificates client k w (pre ++ r :: post) =
        create_certificates client k w (pre ++ [r]) := by
      rw [create_append client pre (r :: post) k w,
          create_append client pre [r] k w, hpre]
      dsimp only
      rw [hcons post, hcons []]
    refine ⟨hmain, ?_, ?_, ?_⟩
    · rw [create_append client pre (r :: post) k w, hpre]
      dsimp only
      rw [hcons post]
    · exact create_liveDirs_mono client (pre ++ r :: post) k w
    · rw [create_append client pre (r :: post) k w, hpre]
      dsimp only
      exact create_liveDirs_mono client (r :: post) _ _
  · intro client k w reqs
    exact create_ok_iff client reqs k w

/-- Witness for C2: with the first client invocation failing, a
two-request batch returns `False` after the first request. -/
theorem c2_batch_aborts_witness :
    (create_certificates (fun _ => ProcOutcome.err "boom") 0
        ⟨[], "nginx", true, none⟩
        ([] ++ ⟨some ["x.example.com"], some ""⟩ ::
          [⟨some ["y.example.com"], some ""⟩])).result = Except.ok false :=
  (c2_batch_aborts_on_first_failure.1 (fun _ => ProcOutcome.err "boom") 0
    ⟨[], "nginx", true, none⟩ [] [⟨some ["y.example.com"], some ""⟩]
    ⟨some ["x.example.com"], some ""⟩ ["x.example.com"] "" "boom"
    rfl rfl (by decide) rfl rfl).2.1

/-- C4: the `registered` flag becomes true only through a
`register_server` run in which `create_certificates` returned `True`;
the `config_changed` handler clears it whenever the `fqdn` value changed
from a previously-set value or is currently set; and `renew_cert` never
changes it, in particular a failed renewal does not reset it. -/
theorem c4_registered_flag_discipline :
    (∀ (env : RegisterEnv) (s : SysState),
      (register_server env s).state.flags.registered = true →
      s.flags.registered = true ∨
        (create_certificates env.client 0 s.world
          (gatherRequests s.kv env.configFqdn env.configEmail)).result =
          Except.ok true) ∧
    (∀ (changedFqdn : Bool) (previousFqdn currentFqdn : String) (registered : Bool),
      ((changedFqdn && truthy previousFqdn) || truthy currentFqdn) = true →
      config_changed changedFqdn previousFqdn currentFqdn registered = false) ∧
    (∀ (configFqdn : String) (probe renewOut : ProcOutcome) (fl : Flags) (w : World),
      (renew_cert configFqdn probe renewOut fl w).flags.registered =
        fl.registered) := by
  refine ⟨?_, ?_, ?_⟩
  · intro env s h
    unfold register_server at h
    dsimp only at h
    split at h
    · exact Or.inl h
    · split at h
      · exact Or.inl h
      · split at h
        · rename_i heq
          exact Or.inr heq
        · exact Or.inl h
        · exact Or.inl h
  · intro changedFqdn previousFqdn currentFqdn registered h
    unfold config_changed
    rw [h]
    rfl
  · intro configFqdn probe renewOut fl w
    unfold renew_cert
    cases hp : no_renew_needed probe with
    | error e => rfl
    | ok b =>
      cases b
      · dsimp only
        cases renewOut <;> rfl
      · rfl

/-- Witness for C4: an fqdn change from `"a.example.com"` to
`"b.example.com"` moves the flag from registered to not-registered. -/
theorem c4_registered_flag_witness :
    config_changed true "a.example.com" "b.example.com" true = false :=
  c4_registered_flag_discipline.2.1 true "a.example.com" "b.example.com" true
    (by decide)

theorem cons2_not_stop {a b : Action} (tr : List Action)
    (ha : ∀ s, a ≠ Action.stopService s) (hb : ∀ s, b ≠ Action.stopService s) :
    ∀ (n : Nat) (name : String),
    (a :: b :: tr)[n]? = some (Action.stopService name) → 2 ≤ n := by
  intro n name h
  match n with
  | 0 =>
    simp at h
    exact absurd h (ha name)
  | 1 =>
    simp at h
    exact absurd h (hb name)
  | (m + 2) => omega

/-- C9: the due-check `no_renew_needed` runs the very same
`letsencrypt renew --agree-tos` command as the real renewal (no dry-run
flag), as the second action of every `renew_cert` run — before any
`stopService`, i.e. while the web service is still running; a non-zero
exit of the probe yields the same answer as a zero exit with the same
output; and the probe answers `True` exactly when the literal marker
`"No renewals were attempted."` occurs in the captured output. -/
theorem c9_probe_runs_real_renewal :
    renewCmd = ["letsencrypt", "renew", "--agree-tos"] ∧
    renewCmd.contains "--dry-run" = false ∧
    (∀ (configFqdn : String) (probe renewOut : ProcOutcome) (fl : Flags) (w : World),
      (renew_cert configFqdn probe renewOut fl w).trace.head? =
        some (Action.removeStateAct "lets-encrypt.renew.requested") ∧
      (renew_cert configFqdn probe renewOut fl w).trace.tail.head? =
        some (Action.invoke renewCmd)) ∧
    (∀ (configFqdn : String) (probe renewOut : ProcOutcome) (fl : Flags) (w : World)
       (n : Nat) (name : String),
      (renew_cert configFqdn probe renewOut fl w).trace[n]? =
        some (Action.stopService name) → 2 ≤ n) ∧
    (∀ output, no_renew_needed (ProcOutcome.err output) =
      no_renew_needed (ProcOutcome.ok output)) ∧
    (∀ output, no_renew_needed (ProcOutcome.ok output) = Except.ok true ↔
      ∃ pre post, output.toList = pre ++ noRenewMarker.toList ++ post) := by
  refine ⟨rfl, by decide, ?_, ?_, fun _ => rfl, ?_⟩
  · intro configFqdn probe renewOut fl w
    unfold renew_cert
    cases hp : no_renew_needed probe with
    | error e => exact ⟨rfl, rfl⟩
    | ok b =>
      cases b
      · dsimp only
        cases renewOut <;> exact ⟨rfl, rfl⟩
      · exact ⟨rfl, rfl⟩
  · intro configFqdn probe renewOut fl w n name
    unfold renew_cert
    cases hp : no_renew_needed probe with
    | error e => exact cons2_not_stop [] (by intro s hc; cases hc) (by intro s hc; cases hc) n name
    | ok b =>
      cases b
      · dsimp only
        cases renewOut <;>
          exact cons2_not_stop _ (by intro s hc; cases hc) (by intro s hc; cases hc) n name
      · exact cons2_not_stop [] (by intro s hc; cases hc) (by intro s hc; cases hc) n name
  · intro output
    simp only [no_renew_needed, Except.ok.injEq]
    exact strContains_iff output noRenewMarker

/-- Witness for C9: with a renewal due, the service stop happens at
trace index 2, after the probe at index 1. -/
theorem c9_probe_witness :
    (renew_cert "a.example.com" (ProcOutcome.ok "due") (ProcOutcome.ok "")
        ⟨true, true, false⟩ ⟨[], "nginx", true, none⟩).trace[2]? =
      some (Action.stopService "nginx") ∧ 2 ≤ 2 :=
  ⟨by decide,
   c9_probe_runs_real_renewal.2.2.2.1 "a.example.com" (ProcOutcome.ok "due")
     (ProcOutcome.ok "") ⟨true, true, false⟩ ⟨[], "nginx", true, none⟩ 2 "nginx"
     (by decide)⟩

end LetsEncrypt
